import Mathlib

/-!
Shallow embedding of src/js/SearchProviders.js (qwc2-demo-app search providers).

Modelling conventions:

* JavaScript numbers are modelled as rationals (Rat).  Every numeric
  operation the claims touch (addition, multiplication by 0.5, comparisons)
  is exact on the inputs of interest, so Rat is a faithful carrier.
* A network fetch outcome is modelled as an argument of type
  (Except Unit payload):  .ok d  is a resolved response with (parsed) body d,
  .error () is a rejected promise (network failure or JSON parse failure).
* Each provider entry point maps the fetch outcome to
  (Except Unit SearchResultsAction):  .ok a  means the function ends up
  dispatching addSearchResults a;  .error () means the promise chain rejects
  with no rejection handler attached, so nothing is dispatched (an exception
  thrown inside a then-callback, e.g. inside a normalizer, travels on the
  same channel).
* JavaScript regular-expression matching and parseFloat happen at the
  boundary with the payload text; they are modelled as oracles: a payload
  field that the source feeds through a regular expression is modelled as
  the outcome of that match (with the captured numbers already parsed).
* JavaScript number-to-string formatting inside display texts is abstracted
  by jsNumStr below; display texts are not the subject of any claim.
* addSearchResults (from qwc2/actions/search, external to this repository)
  is modelled by the record SearchResultsAction holding the object literal
  the source passes to it; the trailing boolean argument of
  addSearchResults is dropped from the model (it is internal to qwc2 and
  never inspected here).
* CoordinatesUtils.reprojectBbox (external to this repository) is threaded
  through the geoadmin definitions as an explicit function argument.
-/

/-- SearchResultType enum from qwc2/actions/search (external to this
repository; only the two tags used by the source are needed). -/
inductive SearchResultType where
  | place
  | themeLayer
  deriving DecidableEq, Repr

/-- Model of a JavaScript array of four numbers (a bbox), with index i of the
array exposed as field ci.  The source's bbox.slice(0) copy is the identity
here. -/
structure Bbox4 where
  c0 : Rat
  c1 : Rat
  c2 : Rat
  c3 : Rat
  deriving DecidableEq, Repr

instance : Inhabited Bbox4 := ⟨⟨0, 0, 0, 0⟩⟩

/-- The bbox array as a list, as stored on result items. -/
def Bbox4.toList (b : Bbox4) : List Rat := [b.c0, b.c1, b.c2, b.c3]

/-- The bbox field of a layer-search sublayer (layerSearch section of the
source). -/
structure SublayerBBox where
  crs : String
  bounds : List Rat
  deriving DecidableEq, Repr

instance : Inhabited SublayerBBox := ⟨⟨"", []⟩⟩

/-- A sublayer definition as built in the layerSearch section of the
source. -/
structure Sublayer where
  name : String
  title : String
  visibility : Bool
  queryable : Bool
  displayField : String
  opacity : Nat
  bbox : SublayerBBox
  deriving DecidableEq, Repr

instance : Inhabited Sublayer := ⟨⟨"", "", true, true, "", 0, default⟩⟩

/-- One entry of a result group's item array (see the "Format of search
results" comment at the top of the source).  JavaScript object fields that a
given item does not set are modelled as none / false / [].  The JavaScript
field named "type" is modelled as itemType (keyword clash); the "layer"
field stores the sublayers array of the layer definition literal
(layer: \{sublayers: [...]\} in the source). -/
structure SearchItem where
  id : String := ""
  text : String := ""
  label : Option String := none
  x : Option Rat := none
  y : Option Rat := none
  crs : Option String := none
  bbox : Option (List Rat) := none
  provider : Option String := none
  more : Bool := false
  category : Option String := none
  searchtable : Option String := none
  oid : Option String := none
  itemType : Option SearchResultType := none
  layer : Option (List Sublayer) := none
  deriving DecidableEq, Repr

instance : Inhabited SearchItem := ⟨{}⟩

/-- One search result group (see the "Format of search results" comment at
the top of the source). -/
structure ResultGroup where
  id : String := ""
  title : String := ""
  titlemsgid : Option String := none
  items : List SearchItem := []
  deriving DecidableEq, Repr

instance : Inhabited ResultGroup := ⟨{}⟩

/-- The object literal each provider passes to addSearchResults:
\{data: results, provider: providerid, reqId: requestId\}. -/
structure SearchResultsAction where
  data : List ResultGroup
  provider : String
  reqId : Nat
  deriving DecidableEq, Repr

instance : Inhabited SearchResultsAction := ⟨⟨[], "", 0⟩⟩

/-- Abstraction of JavaScript number-to-string conversion at display-text
positions (string concatenation with a number in the source).  Display
texts are not the subject of any claim. -/
def jsNumStr (q : Rat) : String := toString q

/-! ## coordinatesSearch (source lines 76-129) -/

/-- The candidate items coordinatesSearch builds from a successful match of
the coordinate pattern with parsed captures x and y (source lines 80-117).
The imperative pushes are modelled by the successive lists items0, items1,
items2; "coord" + items.length ids are reproduced from the lengths. -/
def coordCandidates (x y : Rat) (displaycrs : String) : List SearchItem :=
  let items0 : List SearchItem :=
    if displaycrs ≠ "EPSG:4326" then
      [{ id := "coord0",
         text := jsNumStr x ++ ", " ++ jsNumStr y ++ " (" ++ displaycrs ++ ")",
         x := some x, y := some y, crs := some displaycrs,
         bbox := some [x, y, x, y] }]
    else []
  let items1 : List SearchItem :=
    if -180 ≤ x ∧ x ≤ 180 ∧ -90 ≤ y ∧ y ≤ 90 then
      items0 ++
      [{ id := "coord" ++ toString items0.length,
         text := jsNumStr |x| ++ (if 0 ≤ x then "°E" else "°W") ++ ", "
                 ++ jsNumStr |y| ++ (if 0 ≤ y then "°N" else "°S"),
         x := some x, y := some y, crs := some "EPSG:4326",
         bbox := some [x, y, x, y] }]
    else items0
  let items2 : List SearchItem :=
    if -90 ≤ x ∧ x ≤ 90 ∧ -180 ≤ y ∧ y ≤ 180 ∧ x ≠ y then
      items1 ++
      [{ id := "coord" ++ toString items1.length,
         text := jsNumStr |y| ++ (if 0 ≤ y then "°E" else "°W") ++ ", "
                 ++ jsNumStr |x| ++ (if 0 ≤ x then "°N" else "°S"),
         x := some y, y := some x, crs := some "EPSG:4326",
         bbox := some [y, x, y, x] }]
    else items1
  items2

/-- coordinatesSearch (source lines 76-129).  The match of the strict
two-number pattern and the parseFloat of its two captures are modelled by
the oracle argument parsed: some (x, y) when the pattern matched with those
parsed values, none otherwise.  displaycrsOpt models
searchOptions.displaycrs (none for an absent field; the source then applies
the default "EPSG:4326").  The dispatch of addSearchResults is the returned
action. -/
def coordinatesSearch (parsed : Option (Rat × Rat)) (requestId : Nat)
    (displaycrsOpt : Option String) : SearchResultsAction :=
  let displaycrs := displaycrsOpt.getD "EPSG:4326"
  let items : List SearchItem :=
    match parsed with
    | some (x, y) => coordCandidates x y displaycrs
    | none => []
  let results : List ResultGroup :=
    if items.length > 0 then
      [{ id := "coords", titlemsgid := some "search.coordinates", items := items }]
    else []
  { data := results, provider := "coordinates", reqId := requestId }

/-! ## glarus provider (source lines 286-335) -/

/-- One feature of a glarus response group. -/
structure GlarusFeature where
  id : String
  name : String
  bbox : Bbox4
  deriving DecidableEq, Repr

instance : Inhabited GlarusFeature := ⟨⟨"", "", default⟩⟩

/-- One group of a glarus response payload. -/
structure GlarusGroup where
  category : String
  name : String
  features : List GlarusFeature
  deriving DecidableEq, Repr

instance : Inhabited GlarusGroup := ⟨⟨"", "", []⟩⟩

/-- A glarus response payload; results is none when the field is absent
(the source reads obj.results || [], and the catch branches feed the empty
object \x7b\x7d). -/
structure GlarusPayload where
  results : Option (List GlarusGroup) := none
  deriving DecidableEq, Repr

instance : Inhabited GlarusPayload := ⟨{}⟩

/-- The item glarusSearchResults builds from one feature (source lines
307-316). -/
def glarusFeatureItem (category : String) (item : GlarusFeature) : SearchItem :=
  { id := item.id,
    text := item.name,
    bbox := some item.bbox.toList,
    x := some (0.5 * (item.bbox.c0 + item.bbox.c2)),
    y := some (0.5 * (item.bbox.c1 + item.bbox.c3)),
    crs := some "EPSG:2056",
    provider := some "glarus",
    category := some category }

/-- The "More..." marker item glarusSearchResults appends to a truncated
group (source lines 320-325). -/
def glarusMoreItem (idcounter : Nat) (category : String) : SearchItem :=
  { id := "glarusmore" ++ toString idcounter, more := true,
    provider := some "glarus", category := some category }

/-- The loop body of glarusSearchResults (source lines 302-328): one result
group per payload group, with a "More..." marker item appended when
limit >= 0 && group.features.length > limit; idcounter numbers the marker
ids and is bumped only when a marker is emitted. -/
def glarusProcessGroups (limit : Int) : Nat → List GlarusGroup → List ResultGroup
  | _, [] => []
  | idcounter, group :: rest =>
    let items := group.features.map (glarusFeatureItem group.category)
    if 0 ≤ limit ∧ (group.features.length : Int) > limit then
      { id := group.category, title := group.name,
        items := items ++ [glarusMoreItem idcounter group.category] }
        :: glarusProcessGroups limit (idcounter + 1) rest
    else
      { id := group.category, title := group.name, items := items }
        :: glarusProcessGroups limit idcounter rest

/-- glarusSearchResults (source lines 299-330); limit defaults to -1 as in
the source. -/
def glarusSearchResults (obj : GlarusPayload) (requestId : Nat)
    (limit : Int := -1) : SearchResultsAction :=
  { data := glarusProcessGroups limit 0 (obj.results.getD []),
    provider := "glarus", reqId := requestId }

/-- glarusSearch (source lines 286-291): limit is 9; the catch branch
dispatches glarusSearchResults on the empty object. -/
def glarusSearch (resp : Except Unit GlarusPayload) (requestId : Nat) :
    Except Unit SearchResultsAction :=
  let limit : Int := 9
  match resp with
  | .ok d => .ok (glarusSearchResults d requestId limit)
  | .error _ => .ok (glarusSearchResults {} requestId limit)

/-- glarusMoreResults (source lines 293-297): same shape, no explicit limit
(so glarusSearchResults runs with its default limit -1); the moreItem's
category only selects the URL. -/
def glarusMoreResults (moreItemCategory : String)
    (resp : Except Unit GlarusPayload) (requestId : Nat) :
    Except Unit SearchResultsAction :=
  match resp with
  | .ok d => .ok (glarusSearchResults d requestId)
  | .error _ => .ok (glarusSearchResults {} requestId)

/-- glarusResultGeometry (source lines 332-335).  The returned list holds
the callback invocations, each with its (resultItem, response.data, crs)
arguments: one on a resolved fetch, none on a rejected fetch (no rejection
handler is attached in the source). -/
def glarusResultGeometry (resultItem : SearchItem)
    (resp : Except Unit String) : List (SearchItem × String × String) :=
  match resp with
  | .ok d => [(resultItem, d, "EPSG:2056")]
  | .error _ => []

/-! ## uster and wolfsburg providers (source lines 190-282)

The two wsgi backends share the payload shape: a flat result array in which
an entry without a bbox opens a group and every entry with a bbox is an item
of the group opened last.  A single entry type serves both providers (the
JavaScript entries are untyped objects; uster ignores the id field). -/

/-- One entry of a wsgi search response. -/
structure WsgiEntry where
  displaytext : String := ""
  searchtable : String := ""
  id : String := ""
  bbox : Option Bbox4 := none
  deriving DecidableEq, Repr

instance : Inhabited WsgiEntry := ⟨{}⟩

/-- A wsgi response payload; results is none when the field is absent
(the source reads obj.results || []). -/
structure WsgiPayload where
  results : Option (List WsgiEntry) := none
  deriving DecidableEq, Repr

instance : Inhabited WsgiPayload := ⟨{}⟩

/-- The mutable loop state of usterSearchResults / wolfsburgSearchResults:
the groups already pushed before the currently open one, the currently open
group (the JavaScript code mutates it in place after pushing it, so the
final results array is closed ++ current), and the two id counters. -/
structure WsgiScanState where
  closed : List ResultGroup
  current : Option ResultGroup
  groupcounter : Nat
  counter : Nat
  deriving DecidableEq, Repr

/-- The item usterSearchResults builds from one bbox-bearing entry (source
lines 210-219). -/
def usterItem (counter : Nat) (entry : WsgiEntry) (b : Bbox4) : SearchItem :=
  { id := "usterresult" ++ toString counter,
    text := entry.displaytext,
    searchtable := some entry.searchtable,
    bbox := some b.toList,
    x := some (0.5 * (b.c0 + b.c2)),
    y := some (0.5 * (b.c1 + b.c3)),
    crs := some "EPSG:21781",
    provider := some "uster" }

/-- The loop body of usterSearchResults (source lines 200-221). -/
def usterStep (st : WsgiScanState) (entry : WsgiEntry) : WsgiScanState :=
  match entry.bbox with
  | none =>
    { closed := st.closed ++ st.current.toList,
      current := some { id := "ustergroup" ++ toString st.groupcounter,
                        title := entry.displaytext, items := [] },
      groupcounter := st.groupcounter + 1,
      counter := st.counter }
  | some b =>
    match st.current with
    | some g =>
      { st with
        current := some { g with items := g.items ++ [usterItem st.counter entry b] },
        counter := st.counter + 1 }
    | none => st

/-- usterSearchResults (source lines 195-223). -/
def usterSearchResults (obj : WsgiPayload) (requestId : Nat) : SearchResultsAction :=
  let st := (obj.results.getD []).foldl usterStep
    { closed := [], current := none, groupcounter := 0, counter := 0 }
  { data := st.closed ++ st.current.toList, provider := "uster", reqId := requestId }

/-- usterSearch (source lines 190-193): no catch handler, so a rejected
fetch dispatches nothing. -/
def usterSearch (resp : Except Unit WsgiPayload) (requestId : Nat) :
    Except Unit SearchResultsAction :=
  match resp with
  | .ok d => .ok (usterSearchResults d requestId)
  | .error e => .error e

/-- usterResultGeometry (source lines 225-228); callback invocations as in
glarusResultGeometry, none on a rejected fetch (no rejection handler). -/
def usterResultGeometry (resultItem : SearchItem)
    (resp : Except Unit String) : List (SearchItem × String × String) :=
  match resp with
  | .ok d => [(resultItem, d, "EPSG:21781")]
  | .error _ => []

/-- The item wolfsburgSearchResults builds from one bbox-bearing entry
(source lines 261-271). -/
def wolfsburgItem (counter : Nat) (entry : WsgiEntry) (b : Bbox4) : SearchItem :=
  { id := "wolfsburgresult" ++ toString counter,
    text := entry.displaytext,
    searchtable := some entry.searchtable,
    oid := some entry.id,
    bbox := some b.toList,
    x := some (0.5 * (b.c0 + b.c2)),
    y := some (0.5 * (b.c1 + b.c3)),
    crs := some "EPSG:25832",
    provider := some "wolfsburg" }

/-- The loop body of wolfsburgSearchResults (source lines 251-273). -/
def wolfsburgStep (st : WsgiScanState) (entry : WsgiEntry) : WsgiScanState :=
  match entry.bbox with
  | none =>
    { closed := st.closed ++ st.current.toList,
      current := some { id := "wolfsburggroup" ++ toString st.groupcounter,
                        title := entry.displaytext, items := [] },
      groupcounter := st.groupcounter + 1,
      counter := st.counter }
  | some b =>
    match st.current with
    | some g =>
      { st with
        current := some { g with items := g.items ++ [wolfsburgItem st.counter entry b] },
        counter := st.counter + 1 }
    | none => st

/-- wolfsburgSearchResults (source lines 246-275). -/
def wolfsburgSearchResults (obj : WsgiPayload) (requestId : Nat) : SearchResultsAction :=
  let st := (obj.results.getD []).foldl wolfsburgStep
    { closed := [], current := none, groupcounter := 0, counter := 0 }
  { data := st.closed ++ st.current.toList, provider := "wolfsburg", reqId := requestId }

/-- wolfsburgSearch (source lines 232-243): no catch handler. -/
def wolfsburgSearch (resp : Except Unit WsgiPayload) (requestId : Nat) :
    Except Unit SearchResultsAction :=
  match resp with
  | .ok d => .ok (wolfsburgSearchResults d requestId)
  | .error e => .error e

/-- wolfsburgResultGeometry (source lines 277-282); no rejection handler. -/
def wolfsburgResultGeometry (resultItem : SearchItem)
    (resp : Except Unit String) : List (SearchItem × String × String) :=
  match resp with
  | .ok d => [(resultItem, d, "EPSG:25832")]
  | .error _ => []

/-! ## geoadmin provider (source lines 133-186) -/

/-- The attrs object of a geoadmin response entry.  geom_st_box2d is the
oracle of the BOX(...) regular-expression match on that field:
none when the field is undefined, some none when the field is present but
String.match returns null (no match), some (some b) when the match
succeeded with the four captures parsing to b (a successful match of the
four-group pattern always has length 5). -/
structure GeoAdminAttrs where
  origin : String := ""
  label : String := ""
  lon : Rat := 0
  lat : Rat := 0
  geom_st_box2d : Option (Option Bbox4) := none
  deriving DecidableEq, Repr

instance : Inhabited GeoAdminAttrs := ⟨{}⟩

/-- One entry of a geoadmin response. -/
structure GeoAdminEntry where
  id : String := ""
  attrs : GeoAdminAttrs := {}
  deriving DecidableEq, Repr

instance : Inhabited GeoAdminEntry := ⟨{}⟩

/-- A geoadmin response payload; results is none when the field is absent
(the source reads obj.results || []). -/
structure GeoAdminPayload where
  results : Option (List GeoAdminEntry) := none
  deriving DecidableEq, Repr

instance : Inhabited GeoAdminPayload := ⟨{}⟩

/-- parseItemBBox (source lines 138-151).  reproj models the external
CoordinatesUtils.reprojectBbox.  The .error () branch is the source's
behaviour on a present-but-unmatched field: matches is null, so the guard
(matches && matches.length < 5) is falsy and does NOT return null, and
control falls through to parseFloat(matches[1]), which throws a TypeError.
On a successful match matches.length is 5 (the pattern has four groups), so
the guard is false as well and the four captures are extracted. -/
def parseItemBBox (reproj : List Rat → String → String → List Rat)
    (bboxstr : Option (Option Bbox4)) : Except Unit (Option (List Rat)) :=
  match bboxstr with
  | none => .ok none
  | some matchResult =>
    match matchResult with
    | none => .error ()
    | some b => .ok (some (reproj b.toList "EPSG:21781" "EPSG:4326"))

/-- The categoryMap lookup of geoAdminLocationSearchResults (source lines
154-162); none models an absent key (the source then falls back to
entry.attrs.origin via ||). -/
def geoAdminCategoryMap (origin : String) : Option String :=
  if origin = "gg25" then some "Municipalities"
  else if origin = "kantone" then some "Cantons"
  else if origin = "district" then some "Districts"
  else if origin = "sn25" then some "Places"
  else if origin = "zipcode" then some "Zip Codes"
  else if origin = "address" then some "Address"
  else if origin = "gazetteer" then some "General place name directory"
  else none

/-- Push an item into the group stored under key in an insertion-ordered
association list (the model of a plain JavaScript object with non-numeric
string keys: key order is insertion order, Object.values returns the values
in that order). -/
def pushItemIntoGroup (key : String) (item : SearchItem) :
    List (String × ResultGroup) → List (String × ResultGroup)
  | [] => []
  | (k, g) :: rest =>
    if k = key then (k, { g with items := g.items ++ [item] }) :: rest
    else (k, g) :: pushItemIntoGroup key item rest

/-- The loop body of geoAdminLocationSearchResults (source lines 164-183):
create the origin's group on first sight, then push the entry's item; a
TypeError thrown by parseItemBBox aborts the whole loop (and with it the
dispatch), which the Except monad models. -/
def geoAdminStep (reproj : List Rat → String → String → List Rat)
    (groups : List (String × ResultGroup)) (entry : GeoAdminEntry) :
    Except Unit (List (String × ResultGroup)) := do
  let groups1 :=
    if groups.any (fun p => p.1 = entry.attrs.origin) then groups
    else groups ++ [(entry.attrs.origin,
      { id := entry.attrs.origin,
        title := (geoAdminCategoryMap entry.attrs.origin).getD entry.attrs.origin,
        items := [] })]
  let x := entry.attrs.lon
  let y := entry.attrs.lat
  let parsed ← parseItemBBox reproj entry.attrs.geom_st_box2d
  let item : SearchItem :=
    { id := entry.id,
      text := entry.attrs.label,
      x := some x, y := some y,
      crs := some "EPSG:4326",
      bbox := some (parsed.getD [x, y, x, y]),
      provider := some "geoadmin" }
  return pushItemIntoGroup entry.attrs.origin item groups1

/-- geoAdminLocationSearchResults (source lines 153-186). -/
def geoAdminLocationSearchResults (reproj : List Rat → String → String → List Rat)
    (obj : GeoAdminPayload) (requestId : Nat) : Except Unit SearchResultsAction := do
  let groups ← (obj.results.getD []).foldlM (geoAdminStep reproj) []
  return { data := groups.map Prod.snd, provider := "geoadmin", reqId := requestId }

/-- geoAdminLocationSearch (source lines 133-136): no catch handler, and an
exception thrown inside the then-callback (the normalizer) is equally
unhandled. -/
def geoAdminLocationSearch (reproj : List Rat → String → String → List Rat)
    (resp : Except Unit GeoAdminPayload) (requestId : Nat) :
    Except Unit SearchResultsAction :=
  match resp with
  | .ok d => geoAdminLocationSearchResults reproj d requestId
  | .error e => .error e

/-! ## nominatim provider (source lines 339-404) -/

/-- The address object of a nominatim response entry; absent fields are
none. -/
structure NominatimAddress where
  town : Option String := none
  city : Option String := none
  state : Option String := none
  country : Option String := none
  deriving DecidableEq, Repr

instance : Inhabited NominatimAddress := ⟨{}⟩

/-- One entry of a nominatim response.  The JavaScript field named "class"
is modelled as cls (keyword clash); boundingbox holds the four array
elements after the element-wise parseFloat of source line 379. -/
structure NominatimEntry where
  cls : String := ""
  display_name : String := ""
  address : NominatimAddress := {}
  place_id : String := ""
  boundingbox : Bbox4 := default
  deriving DecidableEq, Repr

instance : Inhabited NominatimEntry := ⟨{}⟩

/-- Model of JavaScript s.charAt(0).toUpperCase() + s.slice(1) (source line
349); Unicode case mapping is abstracted by Char.toUpper. -/
def jsCapitalize (s : String) : String :=
  match s.data with
  | [] => ""
  | ch :: rest => String.mk (ch.toUpper :: rest)

/-- The item nominatimSearchResults builds from one entry (source lines
355-392): shortened display text, address suffix, bbox reordered from
[miny, maxy, minx, maxx] to [minx, miny, maxx, maxy]. -/
def nominatimItem (entry : NominatimEntry) : SearchItem :=
  let text0 := String.intercalate ", " ((entry.display_name.splitOn ", ").take 3)
  let address := entry.address.town.toList ++ entry.address.city.toList
    ++ entry.address.state.toList ++ entry.address.country.toList
  let text := if address.length > 0 then
      text0 ++ "<br/><i>" ++ String.intercalate ", " address ++ "</i>"
    else text0
  let b := entry.boundingbox
  let bbox : List Rat := [b.c2, b.c0, b.c3, b.c1]
  { id := entry.place_id,
    text := text,
    label := some text0,
    bbox := some bbox,
    x := some (0.5 * (b.c2 + b.c3)),
    y := some (0.5 * (b.c0 + b.c1)),
    crs := some "EPSG:4326",
    provider := some "nominatim" }

/-- The loop body of nominatimSearchResults (source lines 344-393): groups
keyed by entry.class in first-appearance order, groupcounter numbers the
group ids. -/
def nominatimStep (st : List (String × ResultGroup) × Nat)
    (entry : NominatimEntry) : List (String × ResultGroup) × Nat :=
  let (groups, groupcounter) := st
  if groups.any (fun p => p.1 = entry.cls) then
    (pushItemIntoGroup entry.cls (nominatimItem entry) groups, groupcounter)
  else
    (groups ++ [(entry.cls,
      { id := "nominatimgroup" ++ toString groupcounter,
        title := jsCapitalize entry.cls,
        items := [nominatimItem entry] })],
     groupcounter + 1)

/-- nominatimSearchResults (source lines 339-395); the response body is a
bare array, or null (the source reads obj || []). -/
def nominatimSearchResults (obj : Option (List NominatimEntry))
    (requestId : Nat) : SearchResultsAction :=
  let st := (obj.getD []).foldl nominatimStep ([], 0)
  { data := st.1.map Prod.snd, provider := "nominatim", reqId := requestId }

/-- nominatimSearch (source lines 397-404): no catch handler, so a rejected
fetch dispatches nothing. -/
def nominatimSearch (resp : Except Unit (Option (List NominatimEntry)))
    (requestId : Nat) : Except Unit SearchResultsAction :=
  match resp with
  | .ok d => .ok (nominatimSearchResults d requestId)
  | .error e => .error e

/-! ## parametrizedSearch (source lines 408-413) -/

/-- parametrizedSearch (source lines 408-413): the response body is passed
through as the data field unchanged; the catch branch dispatches with
data: []. -/
def parametrizedSearch (cfgKey : String)
    (resp : Except Unit (List ResultGroup)) (requestId : Nat) :
    Except Unit SearchResultsAction :=
  match resp with
  | .ok d => .ok { data := d, provider := cfgKey, reqId := requestId }
  | .error _ => .ok { data := [], provider := cfgKey, reqId := requestId }

/-! ## layerSearch (source lines 417-940) -/

/-- createLayerSearchResult (source lines 417-441): the argument is either a
sublayer array (Array.isArray branch) or a single sublayer object. -/
def createLayerSearchResult (sublayers : Sum (List Sublayer) Sublayer)
    (title : String := "Layers") : ResultGroup :=
  match sublayers with
  | .inl lst =>
    { id := "layers", title := title,
      items := lst.map (fun sublayer =>
        { itemType := some SearchResultType.themeLayer,
          id := sublayer.name.toLower,
          text := sublayer.name,
          layer := some [sublayer] }) }
  | .inr s =>
    { id := "layers", title := title,
      items := [{ itemType := some SearchResultType.themeLayer,
                  id := s.name.toLower,
                  text := s.name,
                  layer := some [s] }] }

/-- createLayerSearchSublayers (source lines 443-458); the JavaScript
parameter named type is renamed ty (keyword clash). -/
def createLayerSearchSublayers (boundingBoxes : List (List Rat)) (ty : String) :
    List Sublayer :=
  boundingBoxes.enum.map (fun p =>
    let i := p.1 + 1
    let name := ty ++ (if i < 10 then "0" ++ toString i else toString i)
    { name := name, title := name, visibility := true, queryable := true,
      displayField := "LUNGHEZZA", opacity := 255,
      bbox := { crs := "EPSG:4326", bounds := p.2 } })

/-- The bigRingTrails bbox array of layerSearch (source). -/
def bigRingTrails : List (List Rat) :=
  [[13.084399, 42.93018, 13.225101, 43.057469],
   [13.112396, 42.987247, 13.156464, 43.034649],
   [13.154203, 42.887885, 13.314918, 43.065831],
   [13.219384, 42.888912, 13.314918, 43.065831],
   [13.294092, 42.928977, 13.317705, 42.985975],
   [13.299054, 42.842795, 13.325479, 42.929384],
   [13.206974, 42.756025, 13.309859, 42.843539],
   [13.100696, 42.754517, 13.209451, 42.855694],
   [13.079614, 42.853673, 13.103259, 42.930391]]

/-- The bikingTrails bbox array of layerSearch (source). -/
def bikingTrails : List (List Rat) :=
  [[13.080975, 43.060759, 13.145188, 43.100081],
   [13.159368, 43.056278, 13.253595, 43.101067],
   [13.226789, 43.0474, 13.268515, 43.077059],
   [13.139385, 42.951842, 13.242815, 43.042751],
   [13.284902, 42.942894, 13.357075, 42.998809],
   [13.285922, 42.909734, 13.346104, 42.946046],
   [13.298747, 42.849369, 13.340322, 42.90578],
   [13.300898, 42.809218, 13.342393, 42.842008],
   [13.270826, 42.771548, 13.329335, 42.813392],
   [13.180091, 42.764877, 13.235432, 42.840299],
   [13.092829, 42.727978, 13.155233, 42.792826],
   [13.032941, 42.832141, 13.113966, 42.882266],
   [13.086874, 42.848953, 13.156465, 42.930494],
   [13.130815, 42.934986, 13.201009, 42.952252],
   [13.084882, 42.930839, 13.173372, 43.036227],
   [13.154752, 42.965946, 13.356408, 43.044449],
   [13.303301, 42.843753, 13.349163, 42.970991],
   [13.103285, 42.747099, 13.312094, 42.844293],
   [13.053018, 42.78735, 13.121669, 42.931462],
   [13.088288, 42.931008, 13.357308, 42.990144]]

/-- The hikingTrails bbox array of layerSearch (source). -/
def hikingTrails : List (List Rat) :=
  [[13.202855, 43.079994, 13.229677, 43.103703],
   [13.180711, 43.060704, 13.232776, 43.078002],
   [13.205637, 42.994688, 13.226363, 43.008354],
   [13.20152, 42.980893, 13.231547, 42.994714],
   [13.207687, 42.952431, 13.236698, 42.988956],
   [13.215823, 42.950362, 13.291272, 42.970564],
   [13.09116, 42.937774, 13.134399, 42.975608],
   [13.165058, 42.909019, 13.202166, 42.934866],
   [13.183596, 42.904182, 13.312656, 42.931485],
   [13.248974, 42.895205, 13.291616, 42.913963],
   [13.154204, 42.844375, 13.190249, 42.886117],
   [13.033476, 42.872574, 13.080433, 42.904454],
   [13.156245, 42.774004, 13.207173, 42.82914],
   [13.116651, 42.812346, 13.158333, 42.832541],
   [13.256516, 42.789967, 13.302878, 42.851929],
   [13.255466, 42.770283, 13.297133, 42.795152],
   [13.212138, 42.826894, 13.270632, 42.888353]]

/-- The natureTrails bbox array of layerSearch (source). -/
def natureTrails : List (List Rat) :=
  [[13.078424, 42.930684, 13.093048, 42.944983],
   [13.099838, 43.062975, 13.116469, 43.073842],
   [13.148219, 43.03512, 13.168228, 43.059598],
   [13.29151, 42.972002, 13.307532, 42.986422],
   [13.298055, 42.913438, 13.31464, 42.931517],
   [13.317468, 42.898912, 13.327444, 42.908303],
   [13.307354, 42.837146, 13.322216, 42.843607],
   [13.27301, 42.771341, 13.297367, 42.781444],
   [13.091601, 42.791864, 13.108412, 42.807232],
   [13.036099, 42.880348, 13.04361, 42.893419],
   [13.152109, 42.878041, 13.161086, 42.886974],
   [13.139205, 42.935119, 13.158339, 42.943879],
   [13.160321, 43.020402, 13.170981, 43.02849],
   [13.216583, 42.993255, 13.228745, 43.004025],
   [13.242159, 43.046231, 13.248458, 43.050647],
   [13.220142, 43.09214, 13.225891, 43.103649]]
/-- The sublayer lists of layerSearch (source lines 535-564); the nature
list appends the two literal sublayers N17_1 and N18_2. -/
def bigRingSublayers : List Sublayer := createLayerSearchSublayers bigRingTrails "G"

def bikingSublayers : List Sublayer := createLayerSearchSublayers bikingTrails "B"

def hikingSublayers : List Sublayer := createLayerSearchSublayers hikingTrails "E"

def natureSublayers : List Sublayer :=
  createLayerSearchSublayers natureTrails "N" ++
  [{ name := "N17_1", title := "N17_1", visibility := true, queryable := true,
     displayField := "LUNGHEZZA", opacity := 255,
     bbox := { crs := "EPSG:4326",
               bounds := [13.16521, 43.03974, 13.169361, 43.044502] } },
   { name := "N18_2", title := "N18_2", visibility := true, queryable := true,
     displayField := "LUNGHEZZA", opacity := 255,
     bbox := { crs := "EPSG:4326",
               bounds := [13.247802, 42.76405, 13.260019, 42.785179] } }]

/-- The if-else chain of layerSearch (source lines 568-932): the argument
of the single createLayerSearchResult call of the branch that fires, or
none when no branch fires (results stays empty). -/
def layerSearchSelection (text : String) : Option (Sum (List Sublayer) Sublayer) :=
  if text = "B" ∨ text = "b" then
    some (.inl bikingSublayers)
  else if text = "B0" ∨ text = "b0" then
    some (.inl (bikingSublayers.take 9))
  else if text = "B1" ∨ text = "b1" then
    some (.inl (bikingSublayers.getD 0 default :: (bikingSublayers.drop 9).take 10))
  else if text = "B2" ∨ text = "b2" then
    some (.inl [bikingSublayers.getD 1 default, bikingSublayers.getD 19 default])
  else if text = "B01" ∨ text = "b01" then
    some (.inr (bikingSublayers.getD 0 default))
  else if text = "B02" ∨ text = "b02" then
    some (.inr (bikingSublayers.getD 1 default))
  else if text = "B3" ∨ text = "B03" ∨ text = "b3" ∨ text = "b03" then
    some (.inr (bikingSublayers.getD 2 default))
  else if text = "B4" ∨ text = "B04" ∨ text = "b4" ∨ text = "b04" then
    some (.inr (bikingSublayers.getD 3 default))
  else if text = "B5" ∨ text = "B05" ∨ text = "b5" ∨ text = "b05" then
    some (.inr (bikingSublayers.getD 4 default))
  else if text = "B6" ∨ text = "B06" ∨ text = "b6" ∨ text = "b06" then
    some (.inr (bikingSublayers.getD 5 default))
  else if text = "B7" ∨ text = "B07" ∨ text = "b7" ∨ text = "b07" then
    some (.inr (bikingSublayers.getD 6 default))
  else if text = "B8" ∨ text = "B08" ∨ text = "b8" ∨ text = "b08" then
    some (.inr (bikingSublayers.getD 7 default))
  else if text = "B9" ∨ text = "B09" ∨ text = "b9" ∨ text = "b09" then
    some (.inr (bikingSublayers.getD 8 default))
  else if text = "B10" ∨ text = "b10" then
    some (.inr (bikingSublayers.getD 9 default))
  else if text = "B11" ∨ text = "b11" then
    some (.inr (bikingSublayers.getD 10 default))
  else if text = "B12" ∨ text = "b12" then
    some (.inr (bikingSublayers.getD 11 default))
  else if text = "B13" ∨ text = "b13" then
    some (.inr (bikingSublayers.getD 12 default))
  else if text = "B14" ∨ text = "b14" then
    some (.inr (bikingSublayers.getD 13 default))
  else if text = "B15" ∨ text = "b15" then
    some (.inr (bikingSublayers.getD 14 default))
  else if text = "B16" ∨ text = "b16" then
    some (.inr (bikingSublayers.getD 15 default))
  else if text = "B17" ∨ text = "b17" then
    some (.inr (bikingSublayers.getD 16 default))
  else if text = "B18" ∨ text = "b18" then
    some (.inr (bikingSublayers.getD 17 default))
  else if text = "B19" ∨ text = "b19" then
    some (.inr (bikingSublayers.getD 18 default))
  else if text = "B20" ∨ text = "b20" then
    some (.inr (bikingSublayers.getD 19 default))
  else if text = "E" ∨ text = "e" then
    some (.inl hikingSublayers)
  else if text = "E0" ∨ text = "e0" then
    some (.inl (hikingSublayers.take 9))
  else if text = "E1" ∨ text = "e1" then
    some (.inl (hikingSublayers.getD 0 default :: hikingSublayers.drop 9))
  else if text = "E01" ∨ text = "e01" then
    some (.inr (hikingSublayers.getD 0 default))
  else if text = "E2" ∨ text = "E02" ∨ text = "e2" ∨ text = "e02" then
    some (.inr (hikingSublayers.getD 1 default))
  else if text = "E3" ∨ text = "E03" ∨ text = "e3" ∨ text = "e03" then
    some (.inr (hikingSublayers.getD 2 default))
  else if text = "E4" ∨ text = "E04" ∨ text = "e4" ∨ text = "e04" then
    some (.inr (hikingSublayers.getD 3 default))
  else if text = "E5" ∨ text = "E05" ∨ text = "e5" ∨ text = "e05" then
    some (.inr (hikingSublayers.getD 4 default))
  else if text = "E6" ∨ text = "E06" ∨ text = "e6" ∨ text = "e06" then
    some (.inr (hikingSublayers.getD 5 default))
  else if text = "E7" ∨ text = "E07" ∨ text = "e7" ∨ text = "e07" then
    some (.inr (hikingSublayers.getD 6 default))
  else if text = "E8" ∨ text = "E08" ∨ text = "e8" ∨ text = "e08" then
    some (.inr (hikingSublayers.getD 7 default))
  else if text = "E9" ∨ text = "E09" ∨ text = "e9" ∨ text = "e09" then
    some (.inr (hikingSublayers.getD 8 default))
  else if text = "E10" ∨ text = "e10" then
    some (.inr (hikingSublayers.getD 9 default))
  else if text = "E11" ∨ text = "e11" then
    some (.inr (hikingSublayers.getD 10 default))
  else if text = "E12" ∨ text = "e12" then
    some (.inr (hikingSublayers.getD 11 default))
  else if text = "E13" ∨ text = "e13" then
    some (.inr (hikingSublayers.getD 12 default))
  else if text = "E14" ∨ text = "e14" then
    some (.inr (hikingSublayers.getD 13 default))
  else if text = "E15" ∨ text = "e15" then
    some (.inr (hikingSublayers.getD 14 default))
  else if text = "E16" ∨ text = "e16" then
    some (.inr (hikingSublayers.getD 15 default))
  else if text = "E17" ∨ text = "e17" then
    some (.inr (hikingSublayers.getD 16 default))
  else if text = "G" ∨ text = "G0" ∨ text = "g" ∨ text = "g0" then
    some (.inl bigRingSublayers)
  else if text = "G1" ∨ text = "G01" ∨ text = "g1" ∨ text = "g01" then
    some (.inr (bigRingSublayers.getD 0 default))
  else if text = "G2" ∨ text = "G02" ∨ text = "g2" ∨ text = "g02" then
    some (.inr (bigRingSublayers.getD 1 default))
  else if text = "G3" ∨ text = "G03" ∨ text = "g3" ∨ text = "g03" then
    some (.inr (bigRingSublayers.getD 2 default))
  else if text = "G4" ∨ text = "G04" ∨ text = "g4" ∨ text = "g04" then
    some (.inr (bigRingSublayers.getD 3 default))
  else if text = "G5" ∨ text = "G05" ∨ text = "g5" ∨ text = "g05" then
    some (.inr (bigRingSublayers.getD 4 default))
  else if text = "G6" ∨ text = "G06" ∨ text = "g6" ∨ text = "g06" then
    some (.inr (bigRingSublayers.getD 5 default))
  else if text = "G7" ∨ text = "G07" ∨ text = "g7" ∨ text = "g07" then
    some (.inr (bigRingSublayers.getD 6 default))
  else if text = "G8" ∨ text = "G08" ∨ text = "g8" ∨ text = "g08" then
    some (.inr (bigRingSublayers.getD 7 default))
  else if text = "G9" ∨ text = "G09" ∨ text = "g9" ∨ text = "g09" then
    some (.inr (bigRingSublayers.getD 8 default))
  else if text.toLower = "gab" then
    some (.inr { name := "GAB", title := "GAB", visibility := true, queryable := true, displayField := "LUNGHEZZA", opacity := 255, bbox := { crs := "EPSG:4326", bounds := [13.049564, 42.746306, 13.362181, 43.044449] } })
  else if text.toLower = "gas" then
    some (.inr { name := "GAS", title := "GAS", visibility := true, queryable := true, displayField := "ET_ID", opacity := 255, bbox := { crs := "EPSG:4326", bounds := [13.075322, 42.754668, 13.327618, 43.066628] } })
  else if text = "N" ∨ text = "n" then
    some (.inl natureSublayers)
  else if text = "N0" ∨ text = "n0" then
    some (.inl (natureSublayers.take 9))
  else if text = "N1" ∨ text = "n1" then
    some (.inl (natureSublayers.getD 0 default :: natureSublayers.drop 9))
  else if text = "N01" ∨ text = "n01" then
    some (.inr (natureSublayers.getD 0 default))
  else if text = "N2" ∨ text = "N02" ∨ text = "n2" ∨ text = "n02" then
    some (.inr (natureSublayers.getD 1 default))
  else if text = "N3" ∨ text = "N03" ∨ text = "n3" ∨ text = "n03" then
    some (.inr (natureSublayers.getD 2 default))
  else if text = "N4" ∨ text = "N04" ∨ text = "n4" ∨ text = "n04" then
    some (.inr (natureSublayers.getD 3 default))
  else if text = "N5" ∨ text = "N05" ∨ text = "n5" ∨ text = "n05" then
    some (.inr (natureSublayers.getD 4 default))
  else if text = "N6" ∨ text = "N06" ∨ text = "n6" ∨ text = "n06" then
    some (.inr (natureSublayers.getD 5 default))
  else if text = "N7" ∨ text = "N07" ∨ text = "n7" ∨ text = "n07" then
    some (.inr (natureSublayers.getD 6 default))
  else if text = "N8" ∨ text = "N08" ∨ text = "n8" ∨ text = "n08" then
    some (.inr (natureSublayers.getD 7 default))
  else if text = "N9" ∨ text = "N09" ∨ text = "n9" ∨ text = "n09" then
    some (.inr (natureSublayers.getD 8 default))
  else if text = "N10" ∨ text = "n10" then
    some (.inr (natureSublayers.getD 9 default))
  else if text = "N11" ∨ text = "n11" then
    some (.inr (natureSublayers.getD 10 default))
  else if text = "N12" ∨ text = "n12" then
    some (.inr (natureSublayers.getD 11 default))
  else if text = "N13" ∨ text = "n13" then
    some (.inr (natureSublayers.getD 12 default))
  else if text = "N14" ∨ text = "n14" then
    some (.inr (natureSublayers.getD 13 default))
  else if text = "N15" ∨ text = "n15" then
    some (.inr (natureSublayers.getD 14 default))
  else if text = "N16" ∨ text = "n16" then
    some (.inr (natureSublayers.getD 15 default))
  else if text.toLower.startsWith "n17" ∨ text.toLower.endsWith "nt1" then
    some (.inr (natureSublayers.getD 16 default))
  else if text.toLower.startsWith "n18" ∨ text.toLower.endsWith "nt2" then
    some (.inr (natureSublayers.getD 17 default))
  else if text.toLower = "nt" then
    some (.inl (natureSublayers.drop (natureSublayers.length - 2)))
  else none

/-- layerSearch (source lines 460-940): the chain pushes at most one group
onto results and addSearchResults is dispatched unconditionally. -/
def layerSearch (text : String) (requestId : Nat) : SearchResultsAction :=
  let results : List ResultGroup :=
    match layerSearchSelection text with
    | some arg => [createLayerSearchResult arg]
    | none => []
  { data := results, provider := "layers", reqId := requestId }

/-! ## Specification-side regrouping of the wsgi scan (for the grouping
claims about usterSearchResults / wolfsburgSearchResults) -/

/-- The items of one group body, numbered from c: one item per entry (only
applied to entries whose bbox is present; the getD default is never
reached then). -/
def wsgiBodyItems (mk : Nat → WsgiEntry → Bbox4 → SearchItem) :
    Nat → List WsgiEntry → List SearchItem
  | _, [] => []
  | c, e :: es => mk c e (e.bbox.getD default) :: wsgiBodyItems mk (c + 1) es

/-- Specification-side regrouping, following the spec reading of the scan:
entries with a bbox that precede any header entry are dropped; each header
entry (no bbox) opens a group holding exactly the bbox entries up to the
next header, i.e. every item belongs to the group of the nearest preceding
header; group and item ids are numbered left to right. -/
def usterGroupsSpec : Nat → Nat → List WsgiEntry → List ResultGroup
  | _, _, [] => []
  | gc, c, e :: es =>
    match e.bbox with
    | some _ => usterGroupsSpec gc c es
    | none =>
      let body := es.takeWhile (fun e2 => e2.bbox.isSome)
      { id := "ustergroup" ++ toString gc, title := e.displaytext,
        items := wsgiBodyItems usterItem c body }
        :: usterGroupsSpec (gc + 1) (c + body.length)
            (es.dropWhile (fun e2 => e2.bbox.isSome))
termination_by gc c l => l.length
decreasing_by
· simp only [List.length_cons]; omega
· simp only [List.length_cons]
  have := (List.dropWhile_suffix (l := es) (fun e2 => e2.bbox.isSome)).sublist.length_le
  omega

/-- Same regrouping for the wolfsburg scan. -/
def wolfsburgGroupsSpec : Nat → Nat → List WsgiEntry → List ResultGroup
  | _, _, [] => []
  | gc, c, e :: es =>
    match e.bbox with
    | some _ => wolfsburgGroupsSpec gc c es
    | none =>
      let body := es.takeWhile (fun e2 => e2.bbox.isSome)
      { id := "wolfsburggroup" ++ toString gc, title := e.displaytext,
        items := wsgiBodyItems wolfsburgItem c body }
        :: wolfsburgGroupsSpec (gc + 1) (c + body.length)
            (es.dropWhile (fun e2 => e2.bbox.isSome))
termination_by gc c l => l.length
decreasing_by
· simp only [List.length_cons]; omega
· simp only [List.length_cons]
  have := (List.dropWhile_suffix (l := es) (fun e2 => e2.bbox.isSome)).sublist.length_le
  omega

/-- The results array assembled at the end of the scan: the groups pushed
and closed, followed by the still-open group. -/
def wsgiFinal (st : WsgiScanState) : List ResultGroup :=
  st.closed ++ st.current.toList

/-- Scan lemma for the uster loop: folding usterStep from any state yields
the spec-side regrouping (relative to the open group and counters of the
starting state). -/
theorem uster_scan (entries : List WsgiEntry) :
    ∀ st : WsgiScanState,
    wsgiFinal (entries.foldl usterStep st) =
      match st.current with
      | none => st.closed ++ usterGroupsSpec st.groupcounter st.counter entries
      | some g =>
        st.closed
          ++ [{ g with items := (g.items
                ++ wsgiBodyItems usterItem st.counter
                    (entries.takeWhile (fun e => e.bbox.isSome))) }]
          ++ usterGroupsSpec st.groupcounter
              (st.counter + (entries.takeWhile (fun e => e.bbox.isSome)).length)
              (entries.dropWhile (fun e => e.bbox.isSome)) := by
  induction entries with
  | nil =>
    intro st
    obtain ⟨cl, cur, gc, c⟩ := st
    cases cur with
    | none => simp [wsgiFinal, usterGroupsSpec]
    | some g => simp [wsgiFinal, usterGroupsSpec, wsgiBodyItems]
  | cons e es ih =>
    intro st
    obtain ⟨cl, cur, gc, c⟩ := st
    rw [List.foldl_cons]
    cases hb : e.bbox with
    | none =>
      cases cur with
      | none =>
        rw [ih]
        simp [usterStep, hb, usterGroupsSpec]
      | some g =>
        rw [ih]
        simp [usterStep, hb, usterGroupsSpec, wsgiBodyItems,
          List.takeWhile_cons_of_neg, List.dropWhile_cons_of_neg,
          Option.isSome_none, List.append_assoc]
    | some b =>
      cases cur with
      | none =>
        rw [ih]
        simp [usterStep, hb, usterGroupsSpec]
      | some g =>
        rw [ih]
        simp [usterStep, hb, usterGroupsSpec, wsgiBodyItems,
          List.takeWhile_cons_of_pos, List.dropWhile_cons_of_pos,
          List.append_assoc]
        congr 1
        omega

/-- Scan lemma for the wolfsburg loop. -/
theorem wolfsburg_scan (entries : List WsgiEntry) :
    ∀ st : WsgiScanState,
    wsgiFinal (entries.foldl wolfsburgStep st) =
      match st.current with
      | none => st.closed ++ wolfsburgGroupsSpec st.groupcounter st.counter entries
      | some g =>
        st.closed
          ++ [{ g with items := (g.items
                ++ wsgiBodyItems wolfsburgItem st.counter
                    (entries.takeWhile (fun e => e.bbox.isSome))) }]
          ++ wolfsburgGroupsSpec st.groupcounter
              (st.counter + (entries.takeWhile (fun e => e.bbox.isSome)).length)
              (entries.dropWhile (fun e => e.bbox.isSome)) := by
  induction entries with
  | nil =>
    intro st
    obtain ⟨cl, cur, gc, c⟩ := st
    cases cur with
    | none => simp [wsgiFinal, wolfsburgGroupsSpec]
    | some g => simp [wsgiFinal, wolfsburgGroupsSpec, wsgiBodyItems]
  | cons e es ih =>
    intro st
    obtain ⟨cl, cur, gc, c⟩ := st
    rw [List.foldl_cons]
    cases hb : e.bbox with
    | none =>
      cases cur with
      | none =>
        rw [ih]
        simp [wolfsburgStep, hb, wolfsburgGroupsSpec]
      | some g =>
        rw [ih]
        simp [wolfsburgStep, hb, wolfsburgGroupsSpec, wsgiBodyItems,
          List.takeWhile_cons_of_neg, List.dropWhile_cons_of_neg,
          Option.isSome_none, List.append_assoc]
    | some b =>
      cases cur with
      | none =>
        rw [ih]
        simp [wolfsburgStep, hb, wolfsburgGroupsSpec]
      | some g =>
        rw [ih]
        simp [wolfsburgStep, hb, wolfsburgGroupsSpec, wsgiBodyItems,
          List.takeWhile_cons_of_pos, List.dropWhile_cons_of_pos,
          List.append_assoc]
        congr 1
        omega

/-- The delivered uster groups are exactly the spec-side regrouping. -/
theorem usterSearchResults_data (obj : WsgiPayload) (requestId : Nat) :
    (usterSearchResults obj requestId).data =
      usterGroupsSpec 0 0 (obj.results.getD []) := by
  have h := uster_scan (obj.results.getD []) ⟨[], none, 0, 0⟩
  simpa [usterSearchResults, wsgiFinal] using h

/-- The delivered wolfsburg groups are exactly the spec-side regrouping. -/
theorem wolfsburgSearchResults_data (obj : WsgiPayload) (requestId : Nat) :
    (wolfsburgSearchResults obj requestId).data =
      wolfsburgGroupsSpec 0 0 (obj.results.getD []) := by
  have h := wolfsburg_scan (obj.results.getD []) ⟨[], none, 0, 0⟩
  simpa [wolfsburgSearchResults, wsgiFinal] using h

/-- A result array whose entries all carry a bbox produces no group at
all. -/
theorem usterGroupsSpec_eq_nil (gc c : Nat) (entries : List WsgiEntry)
    (h : ∀ e ∈ entries, e.bbox.isSome = true) :
    usterGroupsSpec gc c entries = [] := by
  induction entries with
  | nil => simp [usterGroupsSpec]
  | cons e es ih =>
    have he := h e (by simp)
    cases hb : e.bbox with
    | none => rw [hb] at he; simp at he
    | some b =>
      rw [usterGroupsSpec, hb]
      exact ih (fun e2 h2 => h e2 (by simp [h2]))

/-- A result array whose entries all carry a bbox produces no group at
all (wolfsburg). -/
theorem wolfsburgGroupsSpec_eq_nil (gc c : Nat) (entries : List WsgiEntry)
    (h : ∀ e ∈ entries, e.bbox.isSome = true) :
    wolfsburgGroupsSpec gc c entries = [] := by
  induction entries with
  | nil => simp [wolfsburgGroupsSpec]
  | cons e es ih =>
    have he := h e (by simp)
    cases hb : e.bbox with
    | none => rw [hb] at he; simp at he
    | some b =>
      rw [wolfsburgGroupsSpec, hb]
      exact ih (fun e2 h2 => h e2 (by simp [h2]))

/-! ## Helper invariants over the normalizer loops -/

/-- P holds of every item of every group in the list. -/
def GroupsAllItems (P : SearchItem → Prop) (gs : List ResultGroup) : Prop :=
  ∀ g ∈ gs, ∀ it ∈ g.items, P it

/-- P holds of every item of every group in the keyed group list. -/
def PairsAllItems (P : SearchItem → Prop) (gs : List (String × ResultGroup)) : Prop :=
  ∀ p ∈ gs, ∀ it ∈ p.2.items, P it

theorem wsgiBodyItems_mem (mk : Nat → WsgiEntry → Bbox4 → SearchItem)
    (c : Nat) (body : List WsgiEntry) (it : SearchItem)
    (h : it ∈ wsgiBodyItems mk c body) :
    ∃ n e, it = mk n e (e.bbox.getD default) := by
  induction body generalizing c with
  | nil => simp [wsgiBodyItems] at h
  | cons e es ih =>
    rw [wsgiBodyItems] at h
    rcases List.mem_cons.mp h with h1 | h2
    · exact ⟨c, e, h1⟩
    · exact ih _ h2

theorem usterGroupsSpec_items (P : SearchItem → Prop)
    (hP : ∀ n e b, P (usterItem n e b)) :
    ∀ gc c entries, GroupsAllItems P (usterGroupsSpec gc c entries) := by
  intro gc c entries
  induction gc, c, entries using usterGroupsSpec.induct with
  | case1 gc c => simp [usterGroupsSpec, GroupsAllItems]
  | case2 gc c e es b hb ih =>
    rw [usterGroupsSpec, hb]
    exact ih
  | case3 gc c e es hb body ih =>
    intro g hg it hit
    rw [usterGroupsSpec, hb] at hg
    rcases List.mem_cons.mp hg with h1 | h2
    · subst h1
      simp at hit
      obtain ⟨n, e2, rfl⟩ := wsgiBodyItems_mem _ _ _ _ hit
      exact hP _ _ _
    · exact ih g h2 it hit

theorem glarusProcessGroups_items (P : SearchItem → Prop)
    (hFeat : ∀ cat f, P (glarusFeatureItem cat f))
    (hMore : ∀ n cat, P (glarusMoreItem n cat)) (limit : Int) :
    ∀ (gs : List GlarusGroup) (idc : Nat),
      GroupsAllItems P (glarusProcessGroups limit idc gs) := by
  intro gs
  induction gs with
  | nil => intro idc; simp [glarusProcessGroups, GroupsAllItems]
  | cons g rest ih =>
    intro idc rg hrg it hit
    by_cases hcond : 0 ≤ limit ∧ ((g.features.length : Int) > limit)
    · rw [glarusProcessGroups, if_pos hcond] at hrg
      rcases List.mem_cons.mp hrg with h1 | h2
      · subst h1
        simp only [List.mem_append, List.mem_map, List.mem_singleton] at hit
        rcases hit with ⟨f, _, rfl⟩ | rfl
        · exact hFeat _ _
        · exact hMore _ _
      · exact ih _ rg h2 it hit
    · rw [glarusProcessGroups, if_neg hcond] at hrg
      rcases List.mem_cons.mp hrg with h1 | h2
      · subst h1
        simp only [List.mem_map] at hit
        obtain ⟨f, _, rfl⟩ := hit
        exact hFeat _ _
      · exact ih _ rg h2 it hit

theorem glarus_zip (limit : Int) :
    ∀ (gs : List GlarusGroup) (idc : Nat) (pg : GlarusGroup) (dg : ResultGroup),
    (pg, dg) ∈ gs.zip (glarusProcessGroups limit idc gs) →
    dg.id = pg.category ∧ dg.title = pg.name ∧
      ((0 ≤ limit ∧ (pg.features.length : Int) > limit) →
        ∃ n, dg.items = pg.features.map (glarusFeatureItem pg.category)
          ++ [glarusMoreItem n pg.category]) ∧
      (¬ (0 ≤ limit ∧ (pg.features.length : Int) > limit) →
        dg.items = pg.features.map (glarusFeatureItem pg.category)) := by
  intro gs
  induction gs with
  | nil => intro idc pg dg h; simp [glarusProcessGroups] at h
  | cons g rest ih =>
    intro idc pg dg h
    by_cases hcond : 0 ≤ limit ∧ ((g.features.length : Int) > limit)
    · rw [glarusProcessGroups, if_pos hcond] at h
      rcases List.mem_cons.mp h with h1 | h2
      · simp only [Prod.mk.injEq] at h1
        obtain ⟨rfl, rfl⟩ := h1
        exact ⟨rfl, rfl, fun _ => ⟨idc, rfl⟩, fun hn => absurd hcond hn⟩
      · exact ih _ pg dg h2
    · rw [glarusProcessGroups, if_neg hcond] at h
      rcases List.mem_cons.mp h with h1 | h2
      · simp only [Prod.mk.injEq] at h1
        obtain ⟨rfl, rfl⟩ := h1
        exact ⟨rfl, rfl, fun hc => absurd hc hcond, fun _ => rfl⟩
      · exact ih _ pg dg h2

theorem glarusProcessGroups_length (limit : Int) :
    ∀ (gs : List GlarusGroup) (idc : Nat),
      (glarusProcessGroups limit idc gs).length = gs.length := by
  intro gs
  induction gs with
  | nil => intro idc; simp [glarusProcessGroups]
  | cons g rest ih =>
    intro idc
    by_cases hcond : 0 ≤ limit ∧ ((g.features.length : Int) > limit)
    · rw [glarusProcessGroups, if_pos hcond]; simp [ih]
    · rw [glarusProcessGroups, if_neg hcond]; simp [ih]

theorem pushItemIntoGroup_all (P : SearchItem → Prop) (key : String)
    (item : SearchItem) (hit : P item) :
    ∀ gs, PairsAllItems P gs → PairsAllItems P (pushItemIntoGroup key item gs) := by
  intro gs
  induction gs with
  | nil => intro _ p hp; simp [pushItemIntoGroup] at hp
  | cons q rest ih =>
    intro h p hp it2 hit2
    obtain ⟨k2, g⟩ := q
    rw [pushItemIntoGroup] at hp
    by_cases hk : k2 = key
    · rw [if_pos hk] at hp
      rcases List.mem_cons.mp hp with h1 | h2
      · subst h1
        simp only [List.mem_append, List.mem_singleton] at hit2
        rcases hit2 with hold | rfl
        · exact h (k2, g) (by simp) it2 hold
        · exact hit
      · exact h p (by simp [h2]) it2 hit2
    · rw [if_neg hk] at hp
      rcases List.mem_cons.mp hp with h1 | h2
      · subst h1
        exact h (k2, g) (by simp) it2 hit2
      · exact ih (fun q hq => h q (by simp [hq])) p h2 it2 hit2

theorem nominatim_fold (P : SearchItem → Prop)
    (hP : ∀ e, P (nominatimItem e)) :
    ∀ (entries : List NominatimEntry) (st : List (String × ResultGroup) × Nat),
    PairsAllItems P st.1 → PairsAllItems P ((entries.foldl nominatimStep st).1) := by
  intro entries
  induction entries with
  | nil => intro st h; exact h
  | cons e es ih =>
    intro st h
    rw [List.foldl_cons]
    apply ih
    obtain ⟨groups, gc⟩ := st
    by_cases hmem : groups.any (fun p => p.1 = e.cls)
    · simpa [nominatimStep, hmem] using
        pushItemIntoGroup_all P e.cls (nominatimItem e) (hP e) groups h
    · simp only [nominatimStep, hmem]
      intro p hp it hit
      simp only [Bool.false_eq_true, if_false, List.mem_append,
        List.mem_singleton] at hp
      rcases hp with h1 | rfl
      · exact h p h1 it hit
      · simp only [List.mem_singleton] at hit
        subst hit
        exact hP e

theorem geoadmin_fold_provider (reproj : List Rat → String → String → List Rat) :
    ∀ (entries : List GeoAdminEntry) (groups out : List (String × ResultGroup)),
    List.foldlM (geoAdminStep reproj) groups entries = .ok out →
    PairsAllItems (fun it => it.provider = some "geoadmin") groups →
    PairsAllItems (fun it => it.provider = some "geoadmin") out := by
  intro entries
  induction entries with
  | nil =>
    intro groups out h hg
    simp only [List.foldlM_nil] at h
    cases h
    exact hg
  | cons e es ih =>
    intro groups out h hg
    rw [List.foldlM_cons] at h
    cases hstep : geoAdminStep reproj groups e with
    | error err => rw [hstep] at h; simp [Bind.bind, Except.bind] at h
    | ok g1 =>
      rw [hstep] at h
      simp only [Bind.bind, Except.bind] at h
      apply ih g1 out h
      unfold geoAdminStep at hstep
      cases hparse : parseItemBBox reproj e.attrs.geom_st_box2d with
      | error err => rw [hparse] at hstep; simp [Bind.bind, Except.bind] at hstep
      | ok parsed =>
        rw [hparse] at hstep
        simp only [Bind.bind, Except.bind, pure, Except.pure, Except.ok.injEq] at hstep
        subst hstep
        apply pushItemIntoGroup_all (fun it => it.provider = some "geoadmin") _ _ rfl
        by_cases hmem : groups.any (fun p => p.1 = e.attrs.origin)
        · simpa [hmem] using hg
        · simp only [hmem, Bool.false_eq_true, if_false]
          intro p hp it hit
          simp only [List.mem_append, List.mem_singleton] at hp
          rcases hp with h1 | rfl
          · exact hg p h1 it hit
          · simp at hit

/-- Every item of the spec-side wolfsburg regrouping is a wolfsburgItem. -/
theorem wolfsburgGroupsSpec_items (P : SearchItem → Prop)
    (hP : ∀ n e b, P (wolfsburgItem n e b)) :
    ∀ gc c entries, GroupsAllItems P (wolfsburgGroupsSpec gc c entries) := by
  intro gc c entries
  induction gc, c, entries using wolfsburgGroupsSpec.induct with
  | case1 gc c => simp [wolfsburgGroupsSpec, GroupsAllItems]
  | case2 gc c e es b hb ih =>
    rw [wolfsburgGroupsSpec, hb]
    exact ih
  | case3 gc c e es hb body ih =>
    intro g hg it hit
    rw [wolfsburgGroupsSpec, hb] at hg
    rcases List.mem_cons.mp hg with h1 | h2
    · subst h1
      simp at hit
      obtain ⟨n, e2, rfl⟩ := wsgiBodyItems_mem _ _ _ _ hit
      exact hP _ _ _
    · exact ih g h2 it hit

/-! ## Claim theorems -/

/-- C1 counterexample: nominatimSearch attaches no catch handler, so on a
rejected fetch nothing is dispatched at all; in particular no action with
data = [] is delivered, contradicting the claim for this provider. -/
theorem nominatimSearch_error_propagates :
    nominatimSearch (.error ()) 0 = .error () ∧
    ¬ ∃ act : SearchResultsAction, nominatimSearch (.error ()) 0 = .ok act := by
  refine ⟨rfl, ?_⟩
  rintro ⟨act, h⟩
  simp [nominatimSearch] at h

/-- C1 amended: exactly glarusSearch, glarusMoreResults and
parametrizedSearch catch a transport/parse failure and convert it into a
dispatch with an empty group list; usterSearch, wolfsburgSearch,
geoAdminLocationSearch and nominatimSearch attach no rejection handler, so
their failure dispatches nothing. -/
theorem search_error_branches :
    (∀ req, glarusSearch (.error ()) req =
      .ok { data := [], provider := "glarus", reqId := req }) ∧
    (∀ cat req, glarusMoreResults cat (.error ()) req =
      .ok { data := [], provider := "glarus", reqId := req }) ∧
    (∀ key req, parametrizedSearch key (.error ()) req =
      .ok { data := [], provider := key, reqId := req }) ∧
    (∀ req, usterSearch (.error ()) req = .error ()) ∧
    (∀ req, wolfsburgSearch (.error ()) req = .error ()) ∧
    (∀ reproj req, geoAdminLocationSearch reproj (.error ()) req = .error ()) ∧
    (∀ req, nominatimSearch (.error ()) req = .error ()) := by
  refine ⟨fun req => rfl, fun cat req => rfl, fun key req => rfl,
    fun req => rfl, fun req => rfl, fun reproj req => rfl, fun req => rfl⟩

/-- C2: a geoadmin entry whose geom_st_box2d is present but does not match
the BOX(...) pattern makes String.match return null; the guard
(matches && matches.length < 5) is falsy and falls through to
parseFloat(matches[1]), which throws, aborting normalization of the whole
payload: the well-formed sibling entry produces no item either and nothing
is dispatched.  The first conjunct shows the sibling alone would normalize
fine. -/
theorem geoadmin_malformed_box_aborts :
    (∀ reproj, geoAdminLocationSearchResults reproj
      ⟨some [{ id := "e1", attrs := { origin := "gg25", label := "Good", lon := 1, lat := 2 } }]⟩ 0 =
      .ok { data := [{ id := "gg25", title := "Municipalities",
                       items := [{ id := "e1", text := "Good", x := some 1, y := some 2,
                                   crs := some "EPSG:4326", bbox := some [1, 2, 1, 2],
                                   provider := some "geoadmin" }] }],
            provider := "geoadmin", reqId := 0 }) ∧
    (∀ reproj, geoAdminLocationSearchResults reproj
      ⟨some [{ id := "e1", attrs := { origin := "gg25", label := "Good", lon := 1, lat := 2 } },
             { id := "e2", attrs := { origin := "gg25", label := "Bad", lon := 3, lat := 4,
                                      geom_st_box2d := some none } }]⟩ 0 = .error ()) := by
  exact ⟨fun reproj => rfl, fun reproj => rfl⟩

/-- C8 counterexample: a failed geometry fetch invokes the uster callback
zero times (no rejection handler is attached), not exactly once, and no
failure signal reaches the caller. -/
theorem usterResultGeometry_failure_drops_callback :
    usterResultGeometry { id := "r1" } (.error ()) = [] ∧
    (usterResultGeometry { id := "r1" } (.error ())).length ≠ 1 := by
  exact ⟨rfl, by simp [usterResultGeometry]⟩

/-- C8 amended: each geometry resolver invokes its callback exactly once
with (item, response.data, crs) when the fetch resolves, and zero times
when the fetch rejects (the rejection stays unhandled, so no failure signal
is surfaced either). -/
theorem result_geometry_callbacks :
    (∀ it d, usterResultGeometry it (.ok d) = [(it, d, "EPSG:21781")]) ∧
    (∀ it, usterResultGeometry it (.error ()) = []) ∧
    (∀ it d, wolfsburgResultGeometry it (.ok d) = [(it, d, "EPSG:25832")]) ∧
    (∀ it, wolfsburgResultGeometry it (.error ()) = []) ∧
    (∀ it d, glarusResultGeometry it (.ok d) = [(it, d, "EPSG:2056")]) ∧
    (∀ it, glarusResultGeometry it (.error ()) = []) := by
  exact ⟨fun it d => rfl, fun it => rfl, fun it d => rfl,
    fun it => rfl, fun it d => rfl, fun it => rfl⟩

/-- Projection of a coordinate candidate to the fields the claim talks
about: coordinates, CRS and bbox. -/
def candKey (it : SearchItem) :
    Option Rat × Option Rat × Option String × Option (List Rat) :=
  (it.x, it.y, it.crs, it.bbox)

/-- C3: candidate generation of coordinatesSearch. -/
theorem coordinatesSearch_candidates :
    (∀ (x y : Rat) (dcrs : String),
      (coordCandidates x y dcrs).map candKey =
        (if dcrs ≠ "EPSG:4326" then
          [(some x, some y, some dcrs, some [x, y, x, y])] else []) ++
        (if -180 ≤ x ∧ x ≤ 180 ∧ -90 ≤ y ∧ y ≤ 90 then
          [(some x, some y, some "EPSG:4326", some [x, y, x, y])] else []) ++
        (if -90 ≤ x ∧ x ≤ 90 ∧ -180 ≤ y ∧ y ≤ 180 ∧ x ≠ y then
          [(some y, some x, some "EPSG:4326", some [y, x, y, x])] else [])) ∧
    (coordCandidates 46.5 6.6 "EPSG:2056").length = 3 ∧
    (coordCandidates 200 6.6 "EPSG:2056").map candKey =
      [(some 200, some 6.6, some "EPSG:2056", some [200, 6.6, 200, 6.6])] ∧
    (coordCandidates 5 5 "EPSG:2056").length = 2 := by
  refine ⟨?_, ?_, ?_, ?_⟩
  · intro x y dcrs
    simp only [coordCandidates]
    split_ifs <;> simp [candKey]
  · norm_num [coordCandidates, candKey]
    decide
  · norm_num [coordCandidates, candKey]
    rw [if_neg (by decide)]
    simp [candKey]
  · norm_num [coordCandidates, candKey]
    decide

/-- C4 counterexample: the items coordinatesSearch delivers carry no
provider field at all (the source never sets one on them), in particular
not provider = "coordinates". -/
theorem coordinatesSearch_items_lack_provider :
    (coordinatesSearch (some (1, 2)) 7 (some "EPSG:2056")).data.length = 1 ∧
    (∃ g ∈ (coordinatesSearch (some (1, 2)) 7 (some "EPSG:2056")).data,
      ∃ it ∈ g.items, it.provider = none ∧ it.provider ≠ some "coordinates") := by
  constructor
  · decide
  · decide

/-- C4 amended: every normalizer except coordinatesSearch stamps each
delivered item with its provider id. -/
theorem normalizers_set_provider_field :
    (∀ reproj obj req act, geoAdminLocationSearchResults reproj obj req = .ok act →
      GroupsAllItems (fun it => it.provider = some "geoadmin") act.data) ∧
    (∀ obj req, GroupsAllItems (fun it => it.provider = some "uster")
      (usterSearchResults obj req).data) ∧
    (∀ obj req, GroupsAllItems (fun it => it.provider = some "wolfsburg")
      (wolfsburgSearchResults obj req).data) ∧
    (∀ obj req limit, GroupsAllItems (fun it => it.provider = some "glarus")
      (glarusSearchResults obj req limit).data) ∧
    (∀ obj req, GroupsAllItems (fun it => it.provider = some "nominatim")
      (nominatimSearchResults obj req).data) := by
  refine ⟨?_, ?_, ?_, ?_, ?_⟩
  · intro reproj obj req act h
    unfold geoAdminLocationSearchResults at h
    cases hf : List.foldlM (geoAdminStep reproj) [] (obj.results.getD []) with
    | error err => rw [hf] at h; simp [Bind.bind, Except.bind] at h
    | ok groups =>
      rw [hf] at h
      simp only [Bind.bind, Except.bind, pure, Except.pure, Except.ok.injEq] at h
      subst h
      have hp := geoadmin_fold_provider reproj (obj.results.getD []) [] groups hf
        (by intro p hp; simp at hp)
      intro g hg it hit
      simp only [List.mem_map] at hg
      obtain ⟨p, hpmem, rfl⟩ := hg
      exact hp p hpmem it hit
  · intro obj req
    rw [usterSearchResults_data]
    exact usterGroupsSpec_items (fun it => it.provider = some "uster")
      (fun n e b => rfl) 0 0 _
  · intro obj req
    rw [wolfsburgSearchResults_data]
    exact wolfsburgGroupsSpec_items (fun it => it.provider = some "wolfsburg")
      (fun n e b => rfl) 0 0 _
  · intro obj req limit
    exact glarusProcessGroups_items (fun it => it.provider = some "glarus")
      (fun cat f => rfl) (fun n cat => rfl) limit _ 0
  · intro obj req
    exact fun g hg it hit => by
      simp only [nominatimSearchResults, List.mem_map] at hg
      obtain ⟨p, hpmem, rfl⟩ := hg
      exact nominatim_fold (fun it => it.provider = some "nominatim")
        (fun e => rfl) (obj.getD []) ([], 0)
        (by intro p2 hp2; simp at hp2) p hpmem it hit

/-- C4 witness: concrete instance of the amended theorem for the uster
normalizer. -/
theorem normalizers_set_provider_field_witness :
    (usterItem 0 { displaytext := "A", searchtable := "t", bbox := some ⟨0, 0, 2, 4⟩ }
      ⟨0, 0, 2, 4⟩).provider = some "uster" :=
  normalizers_set_provider_field.2.1
    ⟨some [{ displaytext := "G" },
           { displaytext := "A", searchtable := "t", bbox := some ⟨0, 0, 2, 4⟩ }]⟩ 1
    { id := "ustergroup0", title := "G",
      items := [usterItem 0 { displaytext := "A", searchtable := "t", bbox := some ⟨0, 0, 2, 4⟩ }
        ⟨0, 0, 2, 4⟩] }
    (by rw [usterSearchResults_data]
        simp [usterGroupsSpec, wsgiBodyItems, List.takeWhile, List.dropWhile]
        decide)
    (usterItem 0 { displaytext := "A", searchtable := "t", bbox := some ⟨0, 0, 2, 4⟩ }
      ⟨0, 0, 2, 4⟩)
    (by simp)

/-- C9: every provider entry point passes its requestId through unchanged
as the reqId of any action it dispatches. -/
theorem dispatch_reqId_passthrough :
    (∀ parsed req dcrs, (coordinatesSearch parsed req dcrs).reqId = req) ∧
    (∀ reproj resp req act, geoAdminLocationSearch reproj resp req = .ok act →
      act.reqId = req) ∧
    (∀ resp req act, usterSearch resp req = .ok act → act.reqId = req) ∧
    (∀ resp req act, wolfsburgSearch resp req = .ok act → act.reqId = req) ∧
    (∀ resp req act, glarusSearch resp req = .ok act → act.reqId = req) ∧
    (∀ cat resp req act, glarusMoreResults cat resp req = .ok act → act.reqId = req) ∧
    (∀ resp req act, nominatimSearch resp req = .ok act → act.reqId = req) ∧
    (∀ key resp req act, parametrizedSearch key resp req = .ok act → act.reqId = req) ∧
    (∀ text req, (layerSearch text req).reqId = req) := by
  refine ⟨fun parsed req dcrs => rfl, ?_, ?_, ?_, ?_, ?_, ?_, ?_, fun text req => rfl⟩
  · intro reproj resp req act h
    cases resp with
    | error e => simp [geoAdminLocationSearch] at h
    | ok d =>
      simp only [geoAdminLocationSearch] at h
      unfold geoAdminLocationSearchResults at h
      cases hf : List.foldlM (geoAdminStep reproj) [] (d.results.getD []) with
      | error err => rw [hf] at h; simp [Bind.bind, Except.bind] at h
      | ok groups =>
        rw [hf] at h
        simp only [Bind.bind, Except.bind, pure, Except.pure, Except.ok.injEq] at h
        subst h
        rfl
  · intro resp req act h
    cases resp with
    | error e => simp [usterSearch] at h
    | ok d => simp only [usterSearch, Except.ok.injEq] at h; subst h; rfl
  · intro resp req act h
    cases resp with
    | error e => simp [wolfsburgSearch] at h
    | ok d => simp only [wolfsburgSearch, Except.ok.injEq] at h; subst h; rfl
  · intro resp req act h
    cases resp with
    | error e => simp only [glarusSearch, Except.ok.injEq] at h; subst h; rfl
    | ok d => simp only [glarusSearch, Except.ok.injEq] at h; subst h; rfl
  · intro cat resp req act h
    cases resp with
    | error e => simp only [glarusMoreResults, Except.ok.injEq] at h; subst h; rfl
    | ok d => simp only [glarusMoreResults, Except.ok.injEq] at h; subst h; rfl
  · intro resp req act h
    cases resp with
    | error e => simp [nominatimSearch] at h
    | ok d => simp only [nominatimSearch, Except.ok.injEq] at h; subst h; rfl
  · intro key resp req act h
    cases resp with
    | error e => simp only [parametrizedSearch, Except.ok.injEq] at h; subst h; rfl
    | ok d => simp only [parametrizedSearch, Except.ok.injEq] at h; subst h; rfl

/-- C9 witness: concrete instance for the uster entry point. -/
theorem dispatch_reqId_passthrough_witness :
    (usterSearchResults {} 5).reqId = 5 :=
  dispatch_reqId_passthrough.2.2.1 (.ok {}) 5 (usterSearchResults {} 5) rfl

/-- C5: a delivered glarus group ends with a MORE marker for its category
iff the limit is non-negative and the group's feature count strictly
exceeds it; with a negative limit no item of the group is a marker. -/
theorem glarus_more_marker_iff :
    ∀ (obj : GlarusPayload) (req : Nat) (limit : Int)
      (pg : GlarusGroup) (dg : ResultGroup),
    (pg, dg) ∈ (obj.results.getD []).zip (glarusSearchResults obj req limit).data →
    ((∃ m, dg.items.getLast? = some m ∧ m.more = true ∧
        m.provider = some "glarus" ∧ m.category = some pg.category) ↔
      (0 ≤ limit ∧ (pg.features.length : Int) > limit)) ∧
    (limit < 0 → ∀ it ∈ dg.items, it.more = false) := by
  intro obj req limit pg dg h
  obtain ⟨hid, htitle, hpos, hneg⟩ :=
    glarus_zip limit (obj.results.getD []) 0 pg dg
      (by simpa [glarusSearchResults] using h)
  by_cases hcond : 0 ≤ limit ∧ ((pg.features.length : Int) > limit)
  · obtain ⟨n, hitems⟩ := hpos hcond
    refine ⟨⟨fun _ => hcond, fun _ => ?_⟩, fun hlt => absurd hcond.1 (by omega)⟩
    refine ⟨glarusMoreItem n pg.category, ?_, rfl, rfl, rfl⟩
    rw [hitems]
    exact List.getLast?_concat _
  · have hitems := hneg hcond
    refine ⟨⟨?_, fun hc => absurd hc hcond⟩, ?_⟩
    · rintro ⟨m, hm, hmore, _, _⟩
      exfalso
      have hmem : m ∈ dg.items := List.mem_of_mem_getLast? hm
      rw [hitems] at hmem
      obtain ⟨f, _, rfl⟩ := List.mem_map.mp hmem
      simp [glarusFeatureItem] at hmore
    · intro _ it hit
      rw [hitems] at hit
      obtain ⟨f, _, rfl⟩ := List.mem_map.mp hit
      rfl

/-- C5 witness: with limit 1 and two features the delivered group ends in a
MORE marker for the group's category. -/
theorem glarus_more_marker_iff_witness :
    ∃ m, ([glarusFeatureItem "cat" ⟨"f1", "F1", ⟨0, 0, 0, 0⟩⟩,
           glarusFeatureItem "cat" ⟨"f2", "F2", ⟨0, 0, 0, 0⟩⟩,
           glarusMoreItem 0 "cat"] : List SearchItem).getLast? = some m ∧
      m.more = true ∧ m.provider = some "glarus" ∧ m.category = some "cat" :=
  ((glarus_more_marker_iff
      ⟨some [⟨"cat", "Cat", [⟨"f1", "F1", ⟨0, 0, 0, 0⟩⟩, ⟨"f2", "F2", ⟨0, 0, 0, 0⟩⟩]⟩]⟩
      3 1
      ⟨"cat", "Cat", [⟨"f1", "F1", ⟨0, 0, 0, 0⟩⟩, ⟨"f2", "F2", ⟨0, 0, 0, 0⟩⟩]⟩
      { id := "cat", title := "Cat",
        items := [glarusFeatureItem "cat" ⟨"f1", "F1", ⟨0, 0, 0, 0⟩⟩,
                  glarusFeatureItem "cat" ⟨"f2", "F2", ⟨0, 0, 0, 0⟩⟩,
                  glarusMoreItem 0 "cat"] }
      (by simp [glarusSearchResults, glarusProcessGroups])).1).mpr (by decide)

/-- C6: a payload handled for glarusMoreResults (no explicit limit, so the
default -1) delivers, per payload group, exactly one item per feature and
no MORE marker. -/
theorem glarus_more_results_complete :
    ∀ (cat : String) (obj : GlarusPayload) (req : Nat) (act : SearchResultsAction),
    glarusMoreResults cat (.ok obj) req = .ok act →
    act.data.length = (obj.results.getD []).length ∧
    ∀ pg dg, (pg, dg) ∈ (obj.results.getD []).zip act.data →
      dg.items = pg.features.map (glarusFeatureItem pg.category) ∧
      ∀ it ∈ dg.items, it.more = false := by
  intro cat obj req act h
  simp only [glarusMoreResults, Except.ok.injEq] at h
  subst h
  refine ⟨by simp [glarusSearchResults, glarusProcessGroups_length], ?_⟩
  intro pg dg hz
  obtain ⟨_, _, _, hneg⟩ :=
    glarus_zip (-1) (obj.results.getD []) 0 pg dg
      (by simpa [glarusSearchResults] using hz)
  have hitems := hneg (fun hc => absurd hc.1 (by decide))
  refine ⟨hitems, ?_⟩
  intro it hit
  rw [hitems] at hit
  obtain ⟨f, _, rfl⟩ := List.mem_map.mp hit
  rfl

/-- C6 witness: concrete two-feature group delivered for glarusMoreResults
holds exactly the two feature items. -/
theorem glarus_more_results_complete_witness :
    ({ id := "cat", title := "Cat",
       items := [glarusFeatureItem "cat" ⟨"f1", "F1", ⟨0, 0, 0, 0⟩⟩,
                 glarusFeatureItem "cat" ⟨"f2", "F2", ⟨0, 0, 0, 0⟩⟩] } : ResultGroup).items =
      ([⟨"f1", "F1", ⟨0, 0, 0, 0⟩⟩, ⟨"f2", "F2", ⟨0, 0, 0, 0⟩⟩] : List GlarusFeature).map
        (glarusFeatureItem "cat") :=
  (((glarus_more_results_complete "cat"
      ⟨some [⟨"cat", "Cat", [⟨"f1", "F1", ⟨0, 0, 0, 0⟩⟩, ⟨"f2", "F2", ⟨0, 0, 0, 0⟩⟩]⟩]⟩
      2 _ rfl).2
      ⟨"cat", "Cat", [⟨"f1", "F1", ⟨0, 0, 0, 0⟩⟩, ⟨"f2", "F2", ⟨0, 0, 0, 0⟩⟩]⟩
      { id := "cat", title := "Cat",
        items := [glarusFeatureItem "cat" ⟨"f1", "F1", ⟨0, 0, 0, 0⟩⟩,
                  glarusFeatureItem "cat" ⟨"f2", "F2", ⟨0, 0, 0, 0⟩⟩] }
      (by simp [glarusSearchResults, glarusProcessGroups])).1)

/-- The claim-side midpoint property of an item: whenever the item carries
a four-element bbox, its coordinates are the bbox midpoint and, when the
bbox is well-formed, lie within it. -/
def BboxMidpoint (it : SearchItem) : Prop :=
  ∀ a b c d : Rat, it.bbox = some [a, b, c, d] →
    it.x = some ((a + c) / 2) ∧ it.y = some ((b + d) / 2) ∧
    (a ≤ c → b ≤ d → ∃ xv yv, it.x = some xv ∧ it.y = some yv ∧
      a ≤ xv ∧ xv ≤ c ∧ b ≤ yv ∧ yv ≤ d)

theorem usterItem_midpoint (n : Nat) (e : WsgiEntry) (b : Bbox4) :
    BboxMidpoint (usterItem n e b) := by
  intro a b2 c d h
  simp only [usterItem, Bbox4.toList, Option.some.injEq, List.cons.injEq,
    and_true] at h
  obtain ⟨rfl, rfl, rfl, rfl⟩ := h
  refine ⟨by simp [usterItem]; ring, by simp [usterItem]; ring, ?_⟩
  intro hac hbd
  refine ⟨_, _, rfl, rfl, by linarith, by linarith, by linarith, by linarith⟩

theorem wolfsburgItem_midpoint (n : Nat) (e : WsgiEntry) (b : Bbox4) :
    BboxMidpoint (wolfsburgItem n e b) := by
  intro a b2 c d h
  simp only [wolfsburgItem, Bbox4.toList, Option.some.injEq, List.cons.injEq,
    and_true] at h
  obtain ⟨rfl, rfl, rfl, rfl⟩ := h
  refine ⟨by simp [wolfsburgItem]; ring, by simp [wolfsburgItem]; ring, ?_⟩
  intro hac hbd
  refine ⟨_, _, rfl, rfl, by linarith, by linarith, by linarith, by linarith⟩

theorem glarusFeatureItem_midpoint (cat : String) (f : GlarusFeature) :
    BboxMidpoint (glarusFeatureItem cat f) := by
  intro a b2 c d h
  simp only [glarusFeatureItem, Bbox4.toList, Option.some.injEq,
    List.cons.injEq, and_true] at h
  obtain ⟨rfl, rfl, rfl, rfl⟩ := h
  refine ⟨by simp [glarusFeatureItem]; ring, by simp [glarusFeatureItem]; ring, ?_⟩
  intro hac hbd
  refine ⟨_, _, rfl, rfl, by linarith, by linarith, by linarith, by linarith⟩

theorem glarusMoreItem_midpoint (n : Nat) (cat : String) :
    BboxMidpoint (glarusMoreItem n cat) := by
  intro a b2 c d h
  simp [glarusMoreItem] at h

theorem nominatimItem_midpoint (e : NominatimEntry) :
    BboxMidpoint (nominatimItem e) := by
  intro a b2 c d h
  simp only [nominatimItem, Option.some.injEq, List.cons.injEq, and_true] at h
  obtain ⟨rfl, rfl, rfl, rfl⟩ := h
  refine ⟨by simp [nominatimItem]; ring, by simp [nominatimItem]; ring, ?_⟩
  intro hac hbd
  refine ⟨_, _, rfl, rfl, by linarith, by linarith, by linarith, by linarith⟩

/-- C7: every PLACE item the uster, wolfsburg, glarus and nominatim
normalizers deliver has its coordinates at the midpoint of its bbox, hence
inside the bbox whenever the bbox is well-formed. -/
theorem item_xy_is_bbox_midpoint :
    (∀ obj req, GroupsAllItems BboxMidpoint (usterSearchResults obj req).data) ∧
    (∀ obj req, GroupsAllItems BboxMidpoint (wolfsburgSearchResults obj req).data) ∧
    (∀ obj req limit, GroupsAllItems BboxMidpoint
      (glarusSearchResults obj req limit).data) ∧
    (∀ obj req, GroupsAllItems BboxMidpoint (nominatimSearchResults obj req).data) := by
  refine ⟨?_, ?_, ?_, ?_⟩
  · intro obj req
    rw [usterSearchResults_data]
    exact usterGroupsSpec_items BboxMidpoint (fun n e b => usterItem_midpoint n e b) 0 0 _
  · intro obj req
    rw [wolfsburgSearchResults_data]
    exact wolfsburgGroupsSpec_items BboxMidpoint
      (fun n e b => wolfsburgItem_midpoint n e b) 0 0 _
  · intro obj req limit
    exact glarusProcessGroups_items BboxMidpoint
      (fun cat f => glarusFeatureItem_midpoint cat f)
      (fun n cat => glarusMoreItem_midpoint n cat) limit _ 0
  · intro obj req
    intro g hg it hit
    simp only [nominatimSearchResults, List.mem_map] at hg
    obtain ⟨p, hpmem, rfl⟩ := hg
    exact nominatim_fold BboxMidpoint (fun e => nominatimItem_midpoint e)
      (obj.getD []) ([], 0) (by intro p2 hp2; simp at hp2) p hpmem it hit

/-- C7 witness: the uster item over bbox [0, 0, 2, 4] has midpoint
coordinates. -/
theorem item_xy_is_bbox_midpoint_witness :
    (usterItem 0 { displaytext := "A", searchtable := "t", bbox := some ⟨0, 0, 2, 4⟩ }
      ⟨0, 0, 2, 4⟩).x = some ((0 + 2) / 2) ∧
    (usterItem 0 { displaytext := "A", searchtable := "t", bbox := some ⟨0, 0, 2, 4⟩ }
      ⟨0, 0, 2, 4⟩).y = some ((0 + 4) / 2) := by
  have happ := item_xy_is_bbox_midpoint.1
    ⟨some [{ displaytext := "G" },
           { displaytext := "A", searchtable := "t", bbox := some ⟨0, 0, 2, 4⟩ }]⟩ 1
    { id := "ustergroup0", title := "G",
      items := [usterItem 0 { displaytext := "A", searchtable := "t", bbox := some ⟨0, 0, 2, 4⟩ }
        ⟨0, 0, 2, 4⟩] }
    (by rw [usterSearchResults_data]
        simp [usterGroupsSpec, wsgiBodyItems, List.takeWhile, List.dropWhile]
        decide)
    (usterItem 0 { displaytext := "A", searchtable := "t", bbox := some ⟨0, 0, 2, 4⟩ }
      ⟨0, 0, 2, 4⟩)
    (by simp)
    0 0 2 4 rfl
  exact ⟨happ.1, happ.2.1⟩

/-- C10: the uster/wolfsburg scan delivers exactly the nearest-preceding-
header regrouping: bbox entries before the first header are dropped, every
item sits in the group of the nearest preceding header, and a payload of
only bbox entries delivers no group. -/
theorem wsgi_grouping :
    (∀ obj req, (usterSearchResults obj req).data =
      usterGroupsSpec 0 0 (obj.results.getD [])) ∧
    (∀ obj req, (wolfsburgSearchResults obj req).data =
      wolfsburgGroupsSpec 0 0 (obj.results.getD [])) ∧
    (∀ (entries : List WsgiEntry) (req : Nat),
      (∀ e ∈ entries, e.bbox.isSome = true) →
      (usterSearchResults ⟨some entries⟩ req).data = [] ∧
      (wolfsburgSearchResults ⟨some entries⟩ req).data = []) := by
  refine ⟨usterSearchResults_data, wolfsburgSearchResults_data, ?_⟩
  intro entries req h
  constructor
  · rw [usterSearchResults_data]
    exact usterGroupsSpec_eq_nil 0 0 _ (by simpa using h)
  · rw [wolfsburgSearchResults_data]
    exact wolfsburgGroupsSpec_eq_nil 0 0 _ (by simpa using h)

/-- C10 witness: a payload consisting only of bbox entries yields an empty
group list for both providers. -/
theorem wsgi_grouping_witness :
    (usterSearchResults ⟨some [{ displaytext := "A", bbox := some ⟨0, 0, 0, 0⟩ }]⟩ 4).data = [] ∧
    (wolfsburgSearchResults ⟨some [{ displaytext := "A", bbox := some ⟨0, 0, 0, 0⟩ }]⟩ 4).data = [] :=
  wsgi_grouping.2.2 [{ displaytext := "A", bbox := some ⟨0, 0, 0, 0⟩ }] 4 (by decide)
